import Mathlib

/-!
Verification development for the issues-extraction application.

The definitions below are a shallow embedding of the application's core
modules — the numbering utilities (`numberingUtils.ts`), the word-processing
extraction utilities (`wordUtils.ts`) and the data model (`types.ts`) — into
Lean.  JavaScript strings are modelled as `String`/`List Char`, JavaScript
numbers appearing as array indices or parsed attribute values are modelled as
`Int` (with `Option Int` where `NaN` can arise from `parseInt`), DOM documents
are modelled by an explicit XML tree, and the in-place mutation of counter
arrays is modelled by explicitly returning the post-call array.

Theorems at the end of the file settle the frozen specification claims.
-/

/- ## JavaScript string and number primitives -/

/-- Characters matched by the JavaScript `\s` character class (also the set
removed by `String.prototype.trim`): ASCII whitespace, NBSP, the Unicode
space separators, line separators and the BOM. -/
def jsSpaceChars : List Char :=
  [' ', '\t', '\n', '\r', '\x0B', '\x0C', '\u00A0', '\u1680', '\u2000',
   '\u2001', '\u2002', '\u2003', '\u2004', '\u2005', '\u2006', '\u2007',
   '\u2008', '\u2009', '\u200A', '\u2028', '\u2029', '\u202F', '\u205F',
   '\u3000', '\uFEFF']

/-- Predicate form of `jsSpaceChars`. -/
def isJsSpace (c : Char) : Bool := jsSpaceChars.contains c

/-- The JavaScript `String.prototype.trim`: strips leading and trailing
whitespace characters. -/
def jsTrimL (cs : List Char) : List Char :=
  ((cs.dropWhile isJsSpace).reverse.dropWhile isJsSpace).reverse

/-- Numeric value of a list of decimal digit characters. -/
def digitsVal (cs : List Char) : Nat :=
  cs.foldl (fun a c => a * 10 + (c.toNat - 48)) 0

/-- The JavaScript `parseInt(s, 10)`: skip leading whitespace, read an
optional sign and then a non-empty prefix of decimal digits (trailing
garbage is ignored); `none` models the `NaN` result when no digit is
found. -/
def parseIntJS (s : String) : Option Int :=
  let cs := s.data.dropWhile isJsSpace
  let signAndRest : Bool × List Char :=
    match cs with
    | '-' :: r => (true, r)
    | '+' :: r => (false, r)
    | _ => (false, cs)
  let digs := signAndRest.2.takeWhile Char.isDigit
  if digs.isEmpty then none
  else some ((if signAndRest.1 then -1 else 1) * (digitsVal digs : Int))

/-- The JavaScript `Array.prototype.slice(0, e)` for a possibly negative or
zero end index: a negative `e` counts from the end of the array, and the
result is clamped to the array bounds. -/
def jsSliceTo {α : Type} (l : List α) (e : Int) : List α :=
  if e < 0 then l.take (Int.toNat ((l.length : Int) + e)) else l.take (Int.toNat e)

/-- The JavaScript indexing `l[i]` for a possibly negative index: a negative
index is an ordinary (absent) property, so the read yields `undefined`. -/
def jsIndex {α : Type} (l : List α) (i : Int) : Option α :=
  if i < 0 then none else l.get? (Int.toNat i)

/-- Association lookup used to model `Map.get` on string-keyed maps. -/
def lookupA {α : Type} : List (String × α) → String → Option α
  | [], _ => none
  | (k, v) :: rest, key => if k = key then some v else lookupA rest key

/-- The JavaScript global-flag `String.prototype.replace` with a literal
pattern, by way of a skip counter: when the pattern matches at the current
position the replacement is emitted and the matched span is skipped without
rescanning the replacement text; an empty pattern leaves the string
unchanged (no pattern used in the sources is empty). -/
def replaceGo (pat rep : List Char) : Nat → List Char → List Char
  | _, [] => []
  | n + 1, _ :: rest => replaceGo pat rep n rest
  | 0, c :: rest =>
    if (c :: rest).take pat.length = pat ∧ pat ≠ [] then
      rep ++ replaceGo pat rep (pat.length - 1) rest
    else c :: replaceGo pat rep 0 rest

/-- All-occurrence replacement on strings (see `replaceGo`). -/
def replaceAllS (s pat rep : String) : String :=
  String.mk (replaceGo pat.data rep.data 0 s.data)

/- ## A small backtracking regular-expression engine

The manual-numbering detector of `numberingUtils.ts` is written with
JavaScript regular expressions.  The engine below mirrors JavaScript's
backtracking semantics: `reEnds` lists the lengths of all admissible matches
of an (anchored) expression against a character list, in the engine's
preference order — alternatives left first, greedy repetition longest
first — so that the head of the list is the match JavaScript commits to. -/

/-- Regular expressions: single-character classes, the empty expression,
concatenation, (prioritised) alternation and greedy Kleene star. -/
inductive RE where
  | cls (p : Char → Bool)
  | eps
  | seq (a b : RE)
  | alt (a b : RE)
  | star (a : RE)

/-- One-or-more repetition, greedy. -/
def rePlus (r : RE) : RE := .seq r (.star r)

/-- Optional occurrence, greedy (the match is preferred over the skip). -/
def reOpt (r : RE) : RE := .alt r .eps

/-- Single step of the matcher: all match lengths for the expression, with
the star re-entry delegated to `recur` (the matcher at one unit less fuel).
Star iterations that consume no input are cut off, exactly as JavaScript
terminates `a*` when the body matches the empty string. -/
def reEndsGo (recur : RE → List Char → List Nat) : RE → List Char → List Nat
  | .cls p, s =>
    match s with
    | [] => []
    | c :: _ => if p c then [1] else []
  | .eps, _ => [0]
  | .alt a b, s => reEndsGo recur a s ++ reEndsGo recur b s
  | .seq a b, s =>
    (reEndsGo recur a s).flatMap
      (fun n => (reEndsGo recur b (s.drop n)).map (fun m => n + m))
  | .star a, s =>
    ((reEndsGo recur a s).flatMap
      (fun n =>
        if 0 < n ∧ n ≤ s.length then
          (recur (.star a) (s.drop n)).map (fun m => n + m)
        else []))
      ++ [0]

/-- Fuel-indexed matcher; every star re-entry consumes at least one character
and one unit of fuel, so fuel `s.length + 1` is never exhausted. -/
def reEndsF : Nat → RE → List Char → List Nat
  | 0, _, _ => []
  | fuel + 1, re, s => reEndsGo (reEndsF fuel) re s

/-- Match lengths for an expression anchored at the start of `s`, in
JavaScript preference order. -/
def reEnds (re : RE) (s : List Char) : List Nat := reEndsF (s.length + 1) re s

/-- The JavaScript `re.test(s)` for a `^`-anchored pattern. -/
def reTest (re : RE) (s : List Char) : Bool := !(reEnds re s).isEmpty

/-- The JavaScript `re.test(s)` for a `^...$`-anchored pattern: some match
consumes the whole input. -/
def reTestFull (re : RE) (s : List Char) : Bool :=
  (reEnds re s).any (fun n => n = s.length)

/-- For a pattern of the shape `^(G)W`, the group length and full match
length JavaScript commits to, if any. -/
def groupMatch (g w : RE) (s : List Char) : Option (Nat × Nat) :=
  ((reEnds g s).flatMap
    (fun gl => (reEnds w (s.drop gl)).map (fun wl => (gl, gl + wl)))).head?

/- Character classes used by the numbering patterns. -/

/-- The class `\d`. -/
def dC : RE := .cls Char.isDigit

/-- The class `[a-z]`. -/
def lowC : RE := .cls (fun c => decide ('a' ≤ c ∧ c ≤ 'z'))

/-- The class `[A-Z]`. -/
def upC : RE := .cls (fun c => decide ('A' ≤ c ∧ c ≤ 'Z'))

/-- The class `[ivxlcdm]`. -/
def lromC : RE := .cls (['i', 'v', 'x', 'l', 'c', 'd', 'm'].contains ·)

/-- The class `[IVXLCDM]`. -/
def uromC : RE := .cls (['I', 'V', 'X', 'L', 'C', 'D', 'M'].contains ·)

/-- The class `\s` (also `[\t\s]`, since the tab is already in `\s`). -/
def wsC : RE := .cls isJsSpace

/-- A single literal character. -/
def litC (c : Char) : RE := .cls (fun x => x == c)

/-- The suffix `\s+` required after the period-terminated patterns. -/
def wOneWs : RE := rePlus wsC

/-- The suffix `(?:\t|\s{2,})` required after the period-free patterns. -/
def wTabOrTwo : RE := .alt (litC '\t') (.seq wsC (rePlus wsC))

/-- The group `\d+(?:\.\d+)*` of dotted decimals. -/
def dottedDecimals : RE := .seq (rePlus dC) (.star (.seq (litC '.') (rePlus dC)))

/-- The fifteen manual-numbering patterns of `detectManualNumbering`, in
source order, each as its capture group paired with its trailing-whitespace
requirement. -/
def detectPatterns : List (RE × RE) :=
  [ (.seq dottedDecimals (litC '.'), wOneWs),
    (.seq (rePlus lowC) (litC '.'), wOneWs),
    (.seq (rePlus upC) (litC '.'), wOneWs),
    (.seq (rePlus lromC) (litC '.'), wOneWs),
    (.seq (rePlus uromC) (litC '.'), wOneWs),
    (.seq (litC '(') (.seq dottedDecimals (litC ')')), wOneWs),
    (.seq (litC '(') (.seq (rePlus lowC) (litC ')')), wOneWs),
    (.seq (litC '(') (.seq (rePlus upC) (litC ')')), wOneWs),
    (.seq (litC '(') (.seq (rePlus lromC) (litC ')')), wOneWs),
    (.seq (litC '(') (.seq (rePlus uromC) (litC ')')), wOneWs),
    (dottedDecimals, wTabOrTwo),
    (.seq lowC (reOpt lowC), wTabOrTwo),
    (.seq upC (reOpt upC), wTabOrTwo),
    (rePlus lromC, wTabOrTwo),
    (rePlus uromC, wTabOrTwo) ]

/-- The pattern loop of `detectManualNumbering`: the first pattern that
matches *and* leaves substantial content after the match returns its capture
group; a pattern that matches with nothing after it does not stop the
loop. -/
def detectLoop : List (RE × RE) → List Char → Option (List Char)
  | [], _ => none
  | (g, w) :: rest, t =>
    match groupMatch g w t with
    | some (gl, ml) =>
      if 0 < (jsTrimL (t.drop ml)).length then some (t.take gl)
      else detectLoop rest t
    | none => detectLoop rest t

/-- Translation of `detectManualNumbering` from `numberingUtils.ts`: detects
a leading manual-numbering token (decimal, alphabetic or roman, with or
without period or parentheses) followed by the required whitespace and
substantial remaining content. -/
def detectManualNumbering (paragraphText : String) : Option String :=
  if paragraphText = "" ∨ (jsTrimL paragraphText.data).length = 0 then none
  else
    match detectLoop detectPatterns (jsTrimL paragraphText.data) with
    | some g => some (String.mk g)
    | none => none

/-- The `startsWithValidPattern` disjunction of `validateManualNumbering`,
one disjunct per source regular expression, in source order. -/
def startsWithValidPattern (nb : List Char) : Bool :=
  reTest dC nb ||
  reTestFull (.seq (.seq lowC (reOpt lowC)) (reOpt (litC '.'))) nb ||
  reTestFull (.seq (.seq upC (reOpt upC)) (reOpt (litC '.'))) nb ||
  reTestFull (.seq (rePlus lromC) (reOpt (litC '.'))) nb ||
  reTestFull (.seq (rePlus uromC) (reOpt (litC '.'))) nb ||
  reTest (.seq (litC '(') dC) nb ||
  reTestFull (.seq (litC '(') (.seq (.seq lowC (reOpt lowC)) (litC ')'))) nb ||
  reTestFull (.seq (litC '(') (.seq (.seq upC (reOpt upC)) (litC ')'))) nb ||
  reTestFull (.seq (litC '(') (.seq (rePlus lromC) (litC ')'))) nb ||
  reTestFull (.seq (litC '(') (.seq (rePlus uromC) (litC ')'))) nb

/-- Translation of `validateManualNumbering` from `numberingUtils.ts`:
the detected token must begin the trimmed text, be followed by a tab or by
two or more whitespace characters, be followed by at least three characters
of content, be at most ten characters long, and look like a numbering
token. -/
def validateManualNumbering (numberingText paragraphText : String) : Bool :=
  if numberingText = "" ∨ paragraphText = "" then false
  else
    let t := jsTrimL paragraphText.data
    let nb := numberingText.data
    if ¬ t.take nb.length = nb then false
    else
      let afterNumbering := t.drop nb.length
      let followedByWhitespace :=
        reTest (.seq wsC (rePlus wsC)) afterNumbering ||
        reTest (litC '\t') afterNumbering
      if followedByWhitespace = false then false
      else
        let content := afterNumbering.dropWhile isJsSpace
        if content.length < 3 then false
        else if 10 < nb.length then false
        else startsWithValidPattern nb

/-- The detection pipeline as the repository's integration tests state it
(`detected && validateManualNumbering(detected, text) ? detected :
undefined`, `src/test/manualNumberingIntegration.test.ts`). -/
def manualNumbering (text : String) : Option String :=
  match detectManualNumbering text with
  | some d => if validateManualNumbering d text then some d else none
  | none => none

/- ## Number formatting (`numberingUtils.ts`) -/

/-- Fuel-indexed core of `toLowerLetter`; the source loop prepends
`chr(97 + (num-1) % 26)` and continues with `(num-1) / 26`, which is the
recursion below.  The quotient is strictly smaller than the argument, so
fuel equal to the starting number always suffices and the fuel-exhausted
branch is unreachable. -/
def toLowerLetterGo : Nat → Nat → String
  | _, 0 => ""
  | 0, _ + 1 => ""
  | f + 1, n + 1 => toLowerLetterGo f (n / 26) ++ String.mk [Char.ofNat (97 + n % 26)]

/-- Translation of `toLowerLetter`: bijective base-26 letters, 1 ↦ "a". -/
def toLowerLetter (num : Nat) : String := toLowerLetterGo num num

/-- Fuel-indexed core of `toUpperLetter` (see `toLowerLetterGo`). -/
def toUpperLetterGo : Nat → Nat → String
  | _, 0 => ""
  | 0, _ + 1 => ""
  | f + 1, n + 1 => toUpperLetterGo f (n / 26) ++ String.mk [Char.ofNat (65 + n % 26)]

/-- Translation of `toUpperLetter`: bijective base-26 letters, 1 ↦ "A". -/
def toUpperLetter (num : Nat) : String := toUpperLetterGo num num

/-- Roman-numeral table in the order the source's loop visits it (largest
value first; the source iterates its parallel arrays from the top index
down). -/
def romanPairsLower : List (Nat × String) :=
  [(1000, "m"), (900, "cm"), (500, "d"), (400, "cd"), (100, "c"), (90, "xc"),
   (50, "l"), (40, "xl"), (10, "x"), (9, "ix"), (5, "v"), (4, "iv"), (1, "i")]

/-- Uppercase Roman-numeral table (see `romanPairsLower`). -/
def romanPairsUpper : List (Nat × String) :=
  [(1000, "M"), (900, "CM"), (500, "D"), (400, "CD"), (100, "C"), (90, "XC"),
   (50, "L"), (40, "XL"), (10, "X"), (9, "IX"), (5, "V"), (4, "IV"), (1, "I")]

/-- The source's inner `while (num >= values[i])` loop appends the symbol
`num / v` times and continues with `num % v`. -/
def romanGo : List (Nat × String) → Nat → String
  | [], _ => ""
  | (v, sym) :: rest, num =>
    String.join (List.replicate (num / v) sym) ++ romanGo rest (num % v)

/-- Translation of `toLowerRoman` (standard subtractive pairs, `m` repeated
without bound for values of 1000 and above). -/
def toLowerRoman (num : Nat) : String := romanGo romanPairsLower num

/-- Translation of `toUpperRoman`. -/
def toUpperRoman (num : Nat) : String := romanGo romanPairsUpper num

/-- The suffix array of `toOrdinal`. -/
def ordinalSuffixes : List String := ["th", "st", "nd", "rd"]

/-- Translation of `toOrdinal`.  The source evaluates
`suffix[(value - 20) % 10] || suffix[value] || suffix[0]`; in JavaScript the
first index is `value % 10` when `value ≥ 20`, the value `-0` (which reads
index 0) when `value` is 0 or 10, and a negative fractionless miss — hence
`undefined`, falsy — for every other `value` below 20. -/
def toOrdinal (num : Nat) : String :=
  let value := num % 100
  let first : Option String :=
    if 20 ≤ value then ordinalSuffixes.get? (value % 10)
    else if value = 0 ∨ value = 10 then ordinalSuffixes.get? 0
    else none
  let chosen : String :=
    match first with
    | some s => s
    | none =>
      match ordinalSuffixes.get? value with
      | some s => s
      | none => "th"
  toString num ++ chosen

/-- Word table `ones` of `toCardinalText`. -/
def onesWords : List String :=
  ["", "one", "two", "three", "four", "five", "six", "seven", "eight", "nine"]

/-- Word table `teens` of `toCardinalText`. -/
def teensWords : List String :=
  ["ten", "eleven", "twelve", "thirteen", "fourteen", "fifteen", "sixteen",
   "seventeen", "eighteen", "nineteen"]

/-- Word table `tens` of `toCardinalText`. -/
def tensWords : List String :=
  ["", "", "twenty", "thirty", "forty", "fifty", "sixty", "seventy", "eighty",
   "ninety"]

/-- Word table `hundreds` of `toCardinalText`. -/
def hundredsWords : List String :=
  ["", "one hundred", "two hundred", "three hundred", "four hundred",
   "five hundred", "six hundred", "seven hundred", "eight hundred",
   "nine hundred"]

/-- Translation of `toCardinalText` for the natural numbers that counters
hold (the source's negative branch cannot be reached from counter values);
1000 and above fall back to the bare decimal string. -/
def toCardinalText (num : Nat) : String :=
  if num = 0 then "zero"
  else if 1000 ≤ num then toString num
  else
    let afterHundreds := if 100 ≤ num then num % 100 else num
    let hundredsPart :=
      if 100 ≤ num then
        hundredsWords.getD (num / 100) "" ++ (if 0 < afterHundreds then " " else "")
      else ""
    let tensPart :=
      if 20 ≤ afterHundreds then
        tensWords.getD (afterHundreds / 10) "" ++
          (if 0 < afterHundreds % 10 then "-" ++ onesWords.getD (afterHundreds % 10) ""
           else "")
      else if 10 ≤ afterHundreds then teensWords.getD (afterHundreds - 10) ""
      else if 0 < afterHundreds then onesWords.getD afterHundreds ""
      else ""
    hundredsPart ++ tensPart

/-- Word table `ordinals` of `toOrdinalText`. -/
def ordinalWords : List String :=
  ["", "first", "second", "third", "fourth", "fifth", "sixth", "seventh",
   "eighth", "ninth", "tenth", "eleventh", "twelfth", "thirteenth",
   "fourteenth", "fifteenth", "sixteenth", "seventeenth", "eighteenth",
   "nineteenth", "twentieth"]

/-- Translation of `toOrdinalText`: direct words up to twenty, then the
cardinal text with its ending rewritten. -/
def toOrdinalText (num : Nat) : String :=
  if num ≤ 20 ∧ 0 < num then ordinalWords.getD num ""
  else
    let c := toCardinalText num
    if c.endsWith "one" then c.dropRight 3 ++ "first"
    else if c.endsWith "two" then c.dropRight 3 ++ "second"
    else if c.endsWith "three" then c.dropRight 5 ++ "third"
    else if c.endsWith "five" then c.dropRight 4 ++ "fifth"
    else if c.endsWith "eight" then c.dropRight 5 ++ "eighth"
    else if c.endsWith "nine" then c.dropRight 4 ++ "ninth"
    else if c.endsWith "twelve" then c.dropRight 6 ++ "twelfth"
    else if c.endsWith "y" then c.dropRight 1 ++ "ieth"
    else c ++ "th"

/-- Translation of `toNumberInDash`. -/
def toNumberInDash (num : Nat) : String := "- " ++ toString num ++ " -"

/-- Translation of `formatNumber`: dispatch on the numbering-format name,
with the decimal string as the default for unknown formats.  The bullet
branch returns the literal byte sequence found in the source file. -/
def formatNumber (num : Nat) (format : String) : String :=
  match format with
  | "decimal" => toString num
  | "lowerLetter" => toLowerLetter num
  | "upperLetter" => toUpperLetter num
  | "lowerRoman" => toLowerRoman num
  | "upperRoman" => toUpperRoman num
  | "bullet" => "â€¢"
  | "ordinal" => toOrdinal num
  | "cardinalText" => toCardinalText num
  | "ordinalText" => toOrdinalText num
  | "numberInDash" => toNumberInDash num
  | _ => toString num

/-- Loop of `processLvlText`: for the i-th formatted number (1-based in the
placeholder), replace every occurrence of `%i` in the accumulated result. -/
def plGo : Nat → List String → String → String
  | _, [], acc => acc
  | i, n :: rest, acc => plGo (i + 1) rest (replaceAllS acc ("%" ++ toString i) n)

/-- Translation of `processLvlText`: an absent (empty) template falls back
to joining the formatted numbers with periods, otherwise the placeholders
`%1`, `%2`, … are substituted in order. -/
def processLvlText (template : String) (formattedNumbers : List String) : String :=
  if template = "" then String.intercalate "." formattedNumbers
  else plGo 1 formattedNumbers template

/- ## Numbering state and style hierarchy (`numberingUtils.ts`) -/

/-- Per-level format spec as parsed by `buildNumberingMaps`: both fields
default to the empty string when the corresponding XML node or attribute is
absent. -/
structure LvlFormat where
  numFmt : String
  lvlText : String
  deriving DecidableEq

/-- Translation of the `StyleNumberingInfo` interface; the `|| undefined`
coercions in `buildStyleMaps` mean an empty attribute is recorded as
`none`. -/
structure StyleNumberingInfo where
  numId : Option String
  ilvl : Option String
  deriving DecidableEq

/-- Translation of the `StyleInfo` interface. -/
structure StyleInfo where
  id : String
  name : String
  basedOn : Option String
  numbering : Option StyleNumberingInfo
  deriving DecidableEq

/-- Translation of the `while` loop of `resolveStyleNumbering`: walk up the
`basedOn` chain, stopping on the empty id (an absent `basedOn` is coerced to
`''`, which is falsy), on an id seen before (the `visited` set), on an
unknown id, or on the first style that carries a `numbering` record.  The
loop is driven by explicit fuel: every recursive step looks up a style whose
id is not yet in `visited` and adds it, so at most one step per stored style
plus the initial step can ever run, and the fuel `styles.length + 1` with
which `resolveStyleNumbering` starts the walk is never exhausted — the
0-fuel branch is unreachable and the function returns exactly what the
source's loop returns. -/
def resolveGo (styles : List (String × StyleInfo)) :
    Nat → List String → String → Option StyleNumberingInfo
  | 0, _, _ => none
  | fuel + 1, visited, current =>
    if current = "" then none
    else if current ∈ visited then none
    else
      match lookupA styles current with
      | none => none
      | some st =>
        match st.numbering with
        | some n => some n
        | none => resolveGo styles fuel (current :: visited)
            (match st.basedOn with | some b => b | none => "")

/-- Translation of `resolveStyleNumbering` from `numberingUtils.ts`. -/
def resolveStyleNumbering (styleId : String) (styles : List (String × StyleInfo)) :
    Option StyleNumberingInfo :=
  resolveGo styles (styles.length + 1) [] styleId

/-- Translation of `initializeCounters`. -/
def initializeCounters (maxLevels : Nat) : List Nat := List.replicate maxLevels 0

/-- Translation of `updateCounters`, element-wise: `counters[ilvl]++` and
`counters[i] = 0` for every `i > ilvl`, leaving `i < ilvl` untouched.  The
level is an `Int` because it comes from `parseInt`: for a negative level the
increment lands on a non-index property (so no element is incremented) while
the zeroing loop still clears every index.  A level at or beyond the array
length would grow the JavaScript array past the indices modelled here; every
caller passes levels below the fixed length 9 of `initializeCounters 9`, and
all verified claims carry that bound. -/
def updateCounters : List Nat → Int → List Nat
  | [], _ => []
  | c :: rest, ilvl =>
    (if ilvl = 0 then c + 1 else if ilvl < 0 then 0 else c) ::
      updateCounters rest (ilvl - 1)

/-- The call `updateCounters(counters, ilvl)` with its caller-visible effect
made explicit: the function mutates the array in place and then returns it,
so the post-call store (first component) and the returned reference (second
component) are one and the same list. -/
def updateCountersCall (counters : List Nat) (ilvl : Int) : List Nat × List Nat :=
  let next := updateCounters counters ilvl
  (next, next)

/- ## XML document model

The extraction code reads parsed XML through a four-method DOM subset:
`getElementsByTagName` (all descendant elements with a tag, in document
order), `getAttribute`, `textContent` and child iteration.  The tree below
models exactly that subset; namespace-qualified tags are stored with their
`w:` markup prefix as they appear in the documents. -/

mutual
/-- An XML node: an element with tag, attributes and children, or text. -/
inductive Xml where
  | elem (tag : String) (attrs : List (String × String)) (children : XmlL)
  | text (s : String)
  deriving DecidableEq
/-- A list of XML nodes (a separate inductive keeps all recursion over the
tree structural, hence computable by the kernel). -/
inductive XmlL where
  | nil
  | cons (hd : Xml) (tl : XmlL)
  deriving DecidableEq
end

/-- Conversion from ordinary lists for writing documents. -/
def XmlL.ofList : List Xml → XmlL
  | [] => .nil
  | x :: xs => .cons x (XmlL.ofList xs)

/-- Element constructor taking an ordinary child list. -/
def el (tag : String) (attrs : List (String × String)) (cs : List Xml) : Xml :=
  .elem tag attrs (XmlL.ofList cs)

/-- All descendants of the nodes of a list, each node before its own
descendants (document pre-order). -/
def descendAll : XmlL → List Xml
  | .nil => []
  | .cons x tl =>
    x :: (match x with
          | .elem _ _ cs => descendAll cs
          | .text _ => []) ++ descendAll tl

/-- All proper descendants of a node in document order. -/
def Xml.descend : Xml → List Xml
  | .text _ => []
  | .elem _ _ cs => descendAll cs

/-- Conversion back to ordinary lists. -/
def XmlL.toList : XmlL → List Xml
  | .nil => []
  | .cons x tl => x :: XmlL.toList tl

/-- The direct children of a node as an ordinary list. -/
def Xml.childList : Xml → List Xml
  | .text _ => []
  | .elem _ _ cs => cs.toList

/-- The tag of an element node. -/
def Xml.tagOf : Xml → Option String
  | .elem t _ _ => some t
  | .text _ => none

/-- The DOM `getElementsByTagName`: every descendant element with the given
tag, in document order. -/
def byTag (x : Xml) (t : String) : List Xml :=
  x.descend.filter (fun c => c.tagOf == some t)

/-- First element returned by `getElementsByTagName`, i.e. the source's
`getElementsByTagName(tag)[0]`. -/
def firstByTag (x : Xml) (t : String) : Option Xml := (byTag x t).head?

/-- The DOM `getAttribute`: `none` models the `null` of an absent
attribute. -/
def attrOf (x : Xml) (name : String) : Option String :=
  match x with
  | .elem _ attrs _ => lookupA attrs name
  | .text _ => none

/-- The DOM `textContent`: the concatenation of all text descendants. -/
def textContent (x : Xml) : String :=
  match x with
  | .text s => s
  | .elem _ _ _ =>
    String.join (x.descend.filterMap fun c =>
      match c with
      | .text s => some s
      | .elem _ _ _ => none)

/- ## Numbering trackers (`numberingUtils.ts`) -/

/-- JavaScript falsiness of an optional string attribute value: absent
(`undefined`/`null`) or the empty string. -/
def optFalsy (o : Option String) : Bool :=
  match o with
  | none => true
  | some s => s == ""

/-- The `numFmt` picked for one level inside the `formattedNumbers` map of
`trackNumbering`/`trackStyleNumbering`: `formats[index]?.numFmt ||
'decimal'` (an absent level spec and an empty format name both fall back to
decimal). -/
def numFmtAt (formats : List LvlFormat) (i : Nat) : String :=
  match formats.get? i with
  | some f => if f.numFmt = "" then "decimal" else f.numFmt
  | none => "decimal"

/-- The `formattedNumbers` computation: format the counter value of each
level with that level's format, the index running from 0. -/
def formattedNumbers (formats : List LvlFormat) : Nat → List Nat → List String
  | _, [] => []
  | i, v :: rest => formatNumber v (numFmtAt formats i) :: formattedNumbers formats (i + 1) rest

/-- The label-building tail shared by `trackNumbering` and
`trackStyleNumbering`: use the level's `lvlText` template when the level
spec exists and its template is non-empty (truthy), otherwise join the
formatted numbers with periods. -/
def levelLabel (formats : List LvlFormat) (lvl : Int) (nums : List String) : String :=
  match jsIndex formats lvl with
  | some cf => if cf.lvlText = "" then String.intercalate "." nums
               else processLvlText cf.lvlText nums
  | none => String.intercalate "." nums

/-- The attribute value `getElementsByTagName(tag)[0]?.getAttribute('w:val')`
read under a node. -/
def valAttrUnder (parent : Xml) (tag : String) : Option String :=
  (firstByTag parent tag).bind (fun e => attrOf e "w:val")

/-- Translation of `trackNumbering` from `numberingUtils.ts`, returning the
produced label together with the counter array after the call (the source
mutates the array in place).  The branches follow the source line by line:
no `w:numPr` descendant, a falsy `numId` or `ilvl` attribute, or a failed
map lookup return `undefined` without touching the counters.  When `ilvl`
does not parse (`parseInt` gives `NaN`), the source still runs: the
increment lands on a non-index property and the zeroing loop body never
executes, `slice(0, NaN)` is empty, `formats[NaN]` is `undefined`, and the
result is the empty join `''`. -/
def trackNumbering (p : Xml) (numIdToAbstractNumId : List (String × String))
    (abstractNumIdToFormat : List (String × List LvlFormat))
    (counters : List Nat) : Option String × List Nat :=
  match firstByTag p "w:numPr" with
  | none => (none, counters)
  | some numPr =>
    match valAttrUnder numPr "w:numId", valAttrUnder numPr "w:ilvl" with
    | some numId, some ilvl =>
      if numId = "" ∨ ilvl = "" then (none, counters)
      else
        match lookupA numIdToAbstractNumId numId with
        | none => (none, counters)
        | some abstractNumId =>
          match lookupA abstractNumIdToFormat abstractNumId with
          | none => (none, counters)
          | some formats =>
            match parseIntJS ilvl with
            | none => (some (String.intercalate "." []), counters)
            | some currentLevel =>
              let counters' := updateCounters counters currentLevel
              let nums := formattedNumbers formats 0 (jsSliceTo counters' (currentLevel + 1))
              (some (levelLabel formats currentLevel nums), counters')
    | _, _ => (none, counters)

/-- Translation of `extractParagraphStyle`: the `w:val` of the first
`w:pStyle` under the first `w:pPr`, with `|| undefined` coercing an empty
value to absence. -/
def extractParagraphStyle (p : Xml) : Option String :=
  match firstByTag p "w:pPr" with
  | none => none
  | some pPr =>
    match firstByTag pPr "w:pStyle" with
    | none => none
    | some pStyle =>
      match attrOf pStyle "w:val" with
      | none => none
      | some v => if v = "" then none else some v

/-- The `styleNumbering.ilvl || "0"` coalescing of `trackStyleNumbering`:
an absent or empty level string defaults to `"0"`. -/
def ilvlOrZero (o : Option String) : String :=
  match o with
  | none => "0"
  | some s => if s = "" then "0" else s

/-- Translation of `trackStyleNumbering` from `numberingUtils.ts`: like
`trackNumbering`, but the list reference comes from the style hierarchy, and
a missing level defaults to level 0 (see `ilvlOrZero`) rather than aborting. -/
def trackStyleNumbering (p : Xml) (styles : List (String × StyleInfo))
    (numIdToAbstractNumId : List (String × String))
    (abstractNumIdToFormat : List (String × List LvlFormat))
    (counters : List Nat) : Option String × List Nat :=
  match extractParagraphStyle p with
  | none => (none, counters)
  | some styleId =>
    match resolveStyleNumbering styleId styles with
    | none => (none, counters)
    | some styleNumbering =>
      match styleNumbering.numId with
      | none => (none, counters)
      | some numId =>
        if numId = "" then (none, counters)
        else
          match lookupA numIdToAbstractNumId numId with
          | none => (none, counters)
          | some abstractNumId =>
            match lookupA abstractNumIdToFormat abstractNumId with
            | none => (none, counters)
            | some formats =>
              match parseIntJS (ilvlOrZero styleNumbering.ilvl) with
              | none => (some (String.intercalate "." []), counters)
              | some ilvl =>
                let counters' := updateCounters counters ilvl
                let nums := formattedNumbers formats 0 (jsSliceTo counters' (ilvl + 1))
                (some (levelLabel formats ilvl nums), counters')

/-- Translation of `extractParagraphText`: concatenate, run by run and child
by child, the visible text (`w:t`), deleted text (`w:delText`) and tabs. -/
def extractParagraphText (p : Xml) : String :=
  String.join ((byTag p "w:r").map fun run =>
    String.join (run.childList.map fun child =>
      match child.tagOf with
      | some "w:t" => textContent child
      | some "w:delText" => textContent child
      | some "w:tab" => "\t"
      | _ => ""))

/- ## Extraction data model and utilities (`types.ts`, `wordUtils.ts`) -/

/-- Translation of the `Criteria` interface. -/
structure Criteria where
  redline : Bool
  highlight : Bool
  squareBrackets : Bool
  comments : Bool
  footnotes : Bool
  endnotes : Bool
  deriving DecidableEq

/-- Translation of the `ParagraphSource` union type. -/
inductive PSource where
  | document
  | header
  | footer
  deriving DecidableEq

/-- A rendered output paragraph (the `docx` `Paragraph` objects the builders
produce).  The claims under verification inspect only the presence, order
and count of these paragraphs and never their run-level content, so a body
paragraph built by `buildDocumentParagraph` is carried as its source
element, while the synthesised identification and label paragraphs carry
their text (and, for comment identifications, the italics flag). -/
inductive DocxP where
  | fromElement (src : Xml)
  | italicLine (text : String)
  | plainLine (text : String)
  deriving DecidableEq

/-- Translation of `buildDocumentParagraph` at the granularity the verified
claims need (see `DocxP`). -/
def buildDocumentParagraph (p : Xml) : DocxP := .fromElement p

/-- Translation of the `ExtractedParagraph` interface; the optional
TypeScript fields become options, and the source's `section` field is named
`sectionNo` because `section` is a Lean keyword. -/
structure ExtractedParagraph where
  paragraph : DocxP
  comments : List (Option DocxP)
  sectionNo : Option Nat
  page : Option Nat
  numbering : Option String
  style : Option String
  source : PSource
  deriving DecidableEq

/-- Translation of `paragraphIsInteresting`: the five structural criteria
plus the square-bracket text scan, each gated by its flag, combined with
logical or. -/
def paragraphIsInteresting (p : Xml) (criteria : Criteria) : Bool :=
  let redline := !(byTag p "w:del").isEmpty || !(byTag p "w:ins").isEmpty ||
    !(byTag p "w:moveFrom").isEmpty || !(byTag p "w:moveTo").isEmpty
  let comments := !(byTag p "w:commentRangeStart").isEmpty
  let footnotes := !(byTag p "w:footnoteReference").isEmpty
  let endnotes := !(byTag p "w:endnoteReference").isEmpty
  let highlight := !(byTag p "w:highlight").isEmpty
  let textRuns := (byTag p "w:r").map fun run =>
    match firstByTag run "w:t" with
    | some t => textContent t
    | none => ""
  let squareBrackets := textRuns.any fun t => t.contains '[' || t.contains ']'
  (criteria.redline && redline) || (criteria.comments && comments) ||
    (criteria.footnotes && footnotes) || (criteria.endnotes && endnotes) ||
    (criteria.highlight && highlight) || (criteria.squareBrackets && squareBrackets)

/-- Translation of `paragraphHasTextContent`: some run owns a `w:t` or
`w:delText` descendant whose text is non-blank after trimming. -/
def paragraphHasTextContent (p : Xml) : Bool :=
  (byTag p "w:r").any fun run =>
    ((byTag run "w:t").any fun t => 0 < (jsTrimL (textContent t).data).length) ||
    ((byTag run "w:delText").any fun t => 0 < (jsTrimL (textContent t).data).length)

/-- Translation of `extractCommentIds`: the `w:id` of every
`w:commentReference` descendant, in document order, empty and absent ids
dropped. -/
def extractCommentIds (p : Xml) : List String :=
  (byTag p "w:commentReference").filterMap fun r =>
    match attrOf r "w:id" with
    | some s => if s = "" then none else some s
    | none => none

/-- Translation of `extractFootnoteIds` (same shape as
`extractCommentIds`). -/
def extractFootnoteIds (p : Xml) : List String :=
  (byTag p "w:footnoteReference").filterMap fun r =>
    match attrOf r "w:id" with
    | some s => if s = "" then none else some s
    | none => none

/-- Date rendering helper (`formatCommentDate` in `utils.ts`).  The real
helper re-renders parseable dates through locale APIs, which sit outside
this embedding, and returns its input unchanged otherwise; it is modelled as
the identity, and no verified claim inspects its output. -/
def formatCommentDate (s : String) : String := s

/-- The comment lookup of `buildComments`: the first `w:comment` element of
the comments part whose `w:id` attribute equals the reference id. -/
def commentLookup (xmlComments : Xml) (id : String) : Option Xml :=
  (byTag xmlComments "w:comment").find? fun c => attrOf c "w:id" == some id

/-- The per-id block of `buildComments`: a dangling id or an empty comment
body contributes the single placeholder `null`; a resolved comment
contributes one italicised identification paragraph (id, commenter, date)
followed by the comment body's paragraphs. -/
def commentBlock (xmlComments : Xml) (id : String) : List (Option DocxP) :=
  match commentLookup xmlComments id with
  | none => [none]
  | some element =>
    let paragraphs := byTag element "w:p"
    if paragraphs.isEmpty then [none]
    else
      let author := (attrOf element "w:author").getD ""
      let initials := (attrOf element "w:initials").getD ""
      let dateStr := (attrOf element "w:date").getD ""
      let commenterName := if initials = "" then author else initials
      let formattedDate := if dateStr = "" then "" else formatCommentDate dateStr
      let identificationText :=
        "Comment " ++ id ++
          (if commenterName ≠ "" then
            " (" ++ commenterName ++
              (if formattedDate ≠ "" then ", " ++ formattedDate else "") ++ ")"
          else if formattedDate ≠ "" then " (" ++ formattedDate ++ ")"
          else "") ++ ": "
      some (DocxP.italicLine identificationText) ::
        paragraphs.map fun q => some (buildDocumentParagraph q)

/-- Translation of `buildComments`: the concatenation (`flatMap`) of the
per-id blocks, in id order. -/
def buildComments (ids : List String) (xmlComments : Xml) : List (Option DocxP) :=
  ids.flatMap (commentBlock xmlComments)

/-- The footnote lookup of `buildFootnotes`. -/
def footnoteLookup (xmlFootnotes : Xml) (id : String) : Option Xml :=
  (byTag xmlFootnotes "w:footnote").find? fun c => attrOf c "w:id" == some id

/-- The per-id block of `buildFootnotes` (identification line, then the
footnote body; a dangling id or empty body contributes one `null`). -/
def footnoteBlock (xmlFootnotes : Xml) (id : String) : List (Option DocxP) :=
  match footnoteLookup xmlFootnotes id with
  | none => [none]
  | some element =>
    let paragraphs := byTag element "w:p"
    if paragraphs.isEmpty then [none]
    else
      some (DocxP.plainLine ("Footnote " ++ id ++ ": ")) ::
        paragraphs.map fun q => some (buildDocumentParagraph q)

/-- Translation of `buildFootnotes`. -/
def buildFootnotes (ids : List String) (xmlFootnotes : Xml) : List (Option DocxP) :=
  ids.flatMap (footnoteBlock xmlFootnotes)

/-- The numbering context threaded into `processDocumentParagraphs` (the
style map and the two numbering maps; the source passes them as three
optional parameters that are always either all present or all absent). -/
structure NumCtx where
  styles : List (String × StyleInfo)
  numIdToAbstractNumId : List (String × String)
  abstractNumIdToFormat : List (String × List LvlFormat)

/-- Loop body of `processDocumentParagraphs` over the paragraph list,
threading the shared counter array: an interesting paragraph with text
content is rendered and recorded — with its direct numbering if any, else
its style numbering, and with no page number (the source never sets `page`
for header and footer paragraphs) — while every other paragraph is skipped
without touching the counters. -/
def processDocGo (criteria : Criteria) (commentsXml : Option Xml) (source : PSource)
    (sectionNumber : Nat) (ctx : Option NumCtx) :
    List Xml → List Nat → List ExtractedParagraph × List Nat
  | [], counters => ([], counters)
  | p :: rest, counters =>
    if paragraphIsInteresting p criteria && paragraphHasTextContent p then
      let commentIds := extractCommentIds p
      let comments :=
        match commentsXml with
        | some cx => buildComments commentIds cx
        | none => []
      let documentParagraph := buildDocumentParagraph p
      let styleId := extractParagraphStyle p
      let tracked :=
        match ctx with
        | some c =>
          let r1 := trackNumbering p c.numIdToAbstractNumId c.abstractNumIdToFormat counters
          if optFalsy r1.1 then
            trackStyleNumbering p c.styles c.numIdToAbstractNumId c.abstractNumIdToFormat r1.2
          else r1
        | none => (none, counters)
      let ep : ExtractedParagraph :=
        { paragraph := documentParagraph
          comments := comments
          sectionNo := if optFalsy tracked.1 then some sectionNumber else none
          page := none
          numbering := tracked.1
          style := styleId
          source := source }
      let next := processDocGo criteria commentsXml source sectionNumber ctx rest tracked.2
      (ep :: next.1, next.2)
    else
      processDocGo criteria commentsXml source sectionNumber ctx rest counters

/-- Translation of `processDocumentParagraphs` from `wordUtils.ts` (the
header/footer pass): iterate the part's `w:p` elements and extract the
interesting ones. -/
def processDocumentParagraphs (doc : Xml) (criteria : Criteria)
    (commentsXml : Option Xml) (source : PSource) (sectionNumber : Nat)
    (ctx : Option NumCtx) (counters : List Nat) :
    List ExtractedParagraph × List Nat :=
  processDocGo criteria commentsXml source sectionNumber ctx (byTag doc "w:p") counters

/-- The per-paragraph state of the main pass of `extractParagraphs`. -/
structure OrchState where
  currentSection : Nat
  currentPage : Nat
  counters : List Nat
  styleCounters : List Nat
  previousNumberingInfo : Option String
  deriving DecidableEq

/-- Translation of the marker-handling block at the top of the main loop of
`extractParagraphs` (`wordUtils.ts`): a paragraph containing a `w:sectPr`
advances the section, resets the page to 1 and clears the carried-forward
numbering label; otherwise a paragraph containing a
`w:lastRenderedPageBreak` advances the page.  Neither branch touches the
two counter arrays. -/
def sectionPageStep (p : Xml) (st : OrchState) : OrchState :=
  if !(byTag p "w:sectPr").isEmpty then
    { st with
        currentSection := st.currentSection + 1
        currentPage := 1
        previousNumberingInfo := none }
  else if !(byTag p "w:lastRenderedPageBreak").isEmpty then
    { st with currentPage := st.currentPage + 1 }
  else st

/-- Rendering of an `Option Nat` field inside a JavaScript template literal:
an absent value prints as the string `undefined`. -/
def jsNumShow : Option Nat → String
  | some n => toString n
  | none => "undefined"

/-- The Ref-cell text of one table row of `buildSections` (`wordUtils.ts`):
`` numbering || `Sect ${section}, p ${page}` `` — a truthy numbering label
wins, otherwise the section/page fallback string is interpolated, with
absent fields printing as `undefined`. -/
def rowRefLabel (ep : ExtractedParagraph) : String :=
  let fallback := "Sect " ++ jsNumShow ep.sectionNo ++ ", p " ++ jsNumShow ep.page
  match ep.numbering with
  | some n => if n = "" then fallback else n
  | none => fallback

/-- Modelled from the spec: `hasAnyAnnotations` is declared by the
specification and exercised by `src/test/wordUtils.test.ts`, but the
snapshot's `wordUtils.ts` does not contain it (the tests import it from
there); per the spec it reports whether at least one extracted paragraph
across the whole batch carries a non-null annotation body. -/
def hasAnyAnnotations (files : List (List ExtractedParagraph)) : Bool :=
  files.any fun ps => ps.any fun p => p.comments.any fun c => c.isSome

/-- The column-width percentages `buildSections` (`wordUtils.ts`) assigns to
the five cells of its header row (Ref, Source, Style, Paragraph, Comment):
the constants 8, 7, 10, 35 and 40, written once in the source and applied to
every report section of every batch — the batch's annotation contents are
never consulted, which is why the function below ignores its argument. -/
def buildSectionsColumnWidths (_files : List (List ExtractedParagraph)) : List Nat :=
  [8, 7, 10, 35, 40]

/- ## Claim-side definitions and concrete fixtures -/

/-- The level-text template of a level, as the claims describe it: the
`lvlText` of the level's format spec, empty when the level has no spec. -/
def templateAt (formats : List LvlFormat) (l : Nat) : String :=
  match formats.get? l with
  | some f => f.lvlText
  | none => ""

/-- The numbering label the specification claims for a paragraph resolved at
level `l`: the formatted counter values of levels 0..l (after the counter
update), substituted into the level's template via the `%1`..`%9`
placeholders in order, or joined with periods when the level has no
template. -/
def claimedLabel (formats : List LvlFormat) (l : Nat) (counters : List Nat) : String :=
  let nums := formattedNumbers formats 0 ((updateCounters counters (l : Int)).take (l + 1))
  if templateAt formats l = "" then String.intercalate "." nums
  else processLvlText (templateAt formats l) nums

/-- Fixture: a paragraph carrying a section-break marker. -/
def sectPara : Xml := el "w:p" [] [el "w:pPr" [] [el "w:sectPr" [] []]]

/-- Fixture: a paragraph carrying a rendered page-break marker. -/
def pageBreakPara : Xml :=
  el "w:p" [] [el "w:r" [] [el "w:lastRenderedPageBreak" [] []]]

/-- Fixture: an orchestrator state mid-pass. -/
def orchState0 : OrchState :=
  ⟨1, 1, initializeCounters 9, initializeCounters 9, some "1."⟩

/-- Fixture: a header part whose single paragraph contains a tracked
insertion with text and no numbering. -/
def headerDocC1 : Xml :=
  el "w:hdr" []
    [el "w:p" [] [el "w:ins" [] [el "w:r" [] [el "w:t" [] [.text "Confidential"]]]]]

/-- Fixture: criteria selecting redlines only. -/
def criteriaRedline : Criteria := ⟨true, false, false, false, false, false⟩

/-- Fixture: a numbering context with empty maps. -/
def emptyNumCtx : NumCtx := ⟨[], [], []⟩

/-- Fixture: a comments part holding the single comment id 1. -/
def commentsXmlW : Xml :=
  el "w:comments" []
    [el "w:comment" [("w:id", "1")]
      [el "w:p" [] [el "w:r" [] [el "w:t" [] [.text "fine"]]]]]

/-- Fixture: an empty footnotes part. -/
def footnotesXmlW : Xml := el "w:footnotes" [] []

/-- Fixture: an extracted paragraph whose only annotation entry is the null
placeholder. -/
def epNull : ExtractedParagraph :=
  ⟨.plainLine "x", [none], some 1, some 1, none, none, .document⟩

/-- Fixture: an extracted paragraph carrying one non-null annotation
entry. -/
def epAnnotated : ExtractedParagraph :=
  ⟨.plainLine "y", [some (.plainLine "c")], some 1, some 1, none, none, .document⟩

/-- Fixture: a paragraph whose `w:numPr` carries the non-numeric list id
`abc` at level 0. -/
def cexNonNumericIdPara : Xml :=
  el "w:p" []
    [el "w:pPr" []
      [el "w:numPr" []
        [el "w:ilvl" [("w:val", "0")] [], el "w:numId" [("w:val", "abc")] []]]]

/-- Fixture: a paragraph whose `w:numPr` carries list id 5 at the malformed
level `x`. -/
def malformedLevelPara : Xml :=
  el "w:p" []
    [el "w:pPr" []
      [el "w:numPr" []
        [el "w:ilvl" [("w:val", "x")] [], el "w:numId" [("w:val", "5")] []]]]

/-- Fixture: a paragraph with direct numbering, list id 5 at level 1. -/
def numberedPara : Xml :=
  el "w:p" []
    [el "w:pPr" []
      [el "w:numPr" []
        [el "w:ilvl" [("w:val", "1")] [], el "w:numId" [("w:val", "5")] []]]]

/-- Fixture: a paragraph whose `w:numPr` carries a list id but no `w:ilvl`
child. -/
def numIdOnlyPara : Xml :=
  el "w:p" []
    [el "w:pPr" [] [el "w:numPr" [] [el "w:numId" [("w:val", "5")] []]]]

/-- Fixture: a paragraph whose style is `H`. -/
def styledPara : Xml :=
  el "w:p" [] [el "w:pPr" [] [el "w:pStyle" [("w:val", "H")] []]]

/-- Fixture: list id 5 resolves to abstract definition A. -/
def numMapW : List (String × String) := [("5", "A")]

/-- Fixture: abstract definition A with two decimal levels, templates
`%1.` and `%1.%2`. -/
def fmtMapW : List (String × List LvlFormat) :=
  [("A", [⟨"decimal", "%1."⟩, ⟨"decimal", "%1.%2"⟩])]

/-- Fixture: style `H` carries direct numbering for list 5 with no level. -/
def stylesNoLvl : List (String × StyleInfo) :=
  [("H", ⟨"H", "Heading", none, some ⟨some "5", none⟩⟩)]

/-- Fixture: style `H` carries direct numbering for list 5 at level 1. -/
def stylesLvlOne : List (String × StyleInfo) :=
  [("H", ⟨"H", "Heading", none, some ⟨some "5", some "1"⟩⟩)]

/-- Fixture: style `H` carries the malformed level `x` for list 5. -/
def stylesLvlBad : List (String × StyleInfo) :=
  [("H", ⟨"H", "Heading", none, some ⟨some "5", some "x"⟩⟩)]

/- ## Helper lemmas -/

/-- The counter update preserves the array length. -/
theorem updateCounters_length (cs : List Nat) (l : Int) :
    (updateCounters cs l).length = cs.length := by
  induction cs generalizing l with
  | nil => simp [updateCounters]
  | cons c rest ih => simp [updateCounters, ih]

/-- A negative level zeroes every index (the increment lands on a non-index
property and the zeroing loop covers the whole array). -/
theorem updateCounters_neg (cs : List Nat) (l : Int) (hl : l < 0) :
    updateCounters cs l = List.replicate cs.length 0 := by
  induction cs generalizing l with
  | nil => simp [updateCounters]
  | cons c rest ih =>
    have h0 : ¬ l = 0 := by omega
    simp [updateCounters, h0, hl, ih (l - 1) (by omega), List.replicate_succ]

/-- Structure of the counter update at an in-range level: the prefix below
the level is untouched, the level's entry is incremented, everything above
is zeroed. -/
theorem updateCounters_take_spec (cs : List Nat) (L : Nat) (h : L < cs.length) :
    updateCounters cs (L : Int) =
      cs.take L ++ (cs.get ⟨L, h⟩ + 1) :: List.replicate (cs.length - (L + 1)) 0 := by
  induction cs generalizing L with
  | nil => simp at h
  | cons c rest ih =>
    cases L with
    | zero =>
      simp [updateCounters, updateCounters_neg rest (-1) (by norm_num)]
    | succ L' =>
      have hL' : L' < rest.length := by
        simpa using Nat.lt_of_succ_lt_succ h
      have e1 : ¬ ((L' : Int) + 1 = 0) := by omega
      have e2 : ¬ ((L' : Int) + 1 < 0) := by omega
      have hval : ((L' : Int) + 1) - 1 = (L' : Int) := by ring
      simp [updateCounters, Nat.cast_add, Nat.cast_one, e1, e2, hval, ih L' hL',
        List.take_succ_cons, Nat.succ_sub_succ]

/-- A slice to a natural end index is a plain take. -/
theorem jsSliceTo_nat {α : Type} (l : List α) (n : Nat) :
    jsSliceTo l (n : Int) = l.take n := by
  simp [jsSliceTo]

/-- The shared label tail agrees with the claim-side template description. -/
theorem levelLabel_eq_templateAt (formats : List LvlFormat) (L : Nat) (nums : List String) :
    levelLabel formats (L : Int) nums =
      (if templateAt formats L = "" then String.intercalate "." nums
       else processLvlText (templateAt formats L) nums) := by
  have hnn : ¬ ((L : Int) < 0) := by omega
  unfold levelLabel templateAt jsIndex
  simp only [hnn, if_false, Int.toNat_natCast]
  cases h : formats.get? L with
  | none => simp [h]
  | some cf => simp [h]

/- ## Claim C9 -/

/-- Claim C9: for an in-range level, `updateCounters` increments the entry
at the level, zeroes every higher index and leaves lower indices unchanged,
and it hands back the very same (mutated) backing array — the post-call
store and the returned value of `updateCountersCall` coincide — rather than
a copy; in particular `[1,2,3,4]` at level 1 becomes `[1,3,0,0]`. -/
theorem updateCounters_frame_and_value (cs : List Nat) (L : Nat) (h : L < cs.length) :
    (updateCountersCall cs (L : Int)).2 = (updateCountersCall cs (L : Int)).1 ∧
    updateCounters cs (L : Int) =
      cs.take L ++ (cs.get ⟨L, h⟩ + 1) :: List.replicate (cs.length - (L + 1)) 0 ∧
    updateCounters ([1, 2, 3, 4] : List Nat) 1 = [1, 3, 0, 0] :=
  ⟨rfl, updateCounters_take_spec cs L h, by decide⟩

/-- Witness for C9 at the spec's own example. -/
theorem updateCounters_frame_and_value_witness :
    (1 : Nat) < ([1, 2, 3, 4] : List Nat).length ∧
    updateCounters ([1, 2, 3, 4] : List Nat) 1 = [1, 3, 0, 0] :=
  ⟨by decide, (updateCounters_frame_and_value [1, 2, 3, 4] 1 (by decide)).2.2⟩

/- ## Claim C5 -/

/-- Claim C5: in the orchestrator's main pass, a paragraph containing a
section-break marker advances the section number by one, resets the page
number to 1 and clears the carried-forward numbering label while leaving
both counter arrays unchanged; a paragraph containing a rendered page-break
marker (and no section break) advances the page number by one and changes
nothing else. -/
theorem sectionPageStep_transitions (p : Xml) (st : OrchState) :
    (byTag p "w:sectPr" ≠ [] →
      sectionPageStep p st =
        { st with
            currentSection := st.currentSection + 1
            currentPage := 1
            previousNumberingInfo := none } ∧
      (sectionPageStep p st).counters = st.counters ∧
      (sectionPageStep p st).styleCounters = st.styleCounters) ∧
    (byTag p "w:sectPr" = [] → byTag p "w:lastRenderedPageBreak" ≠ [] →
      sectionPageStep p st = { st with currentPage := st.currentPage + 1 } ∧
      (sectionPageStep p st).currentSection = st.currentSection ∧
      (sectionPageStep p st).counters = st.counters ∧
      (sectionPageStep p st).styleCounters = st.styleCounters ∧
      (sectionPageStep p st).previousNumberingInfo = st.previousNumberingInfo) := by
  constructor
  · intro hs
    have hne : (byTag p "w:sectPr").isEmpty = false := by
      cases hbt : byTag p "w:sectPr" <;> simp_all
    simp [sectionPageStep, hne]
  · intro hs hb
    have h1 : (byTag p "w:sectPr").isEmpty = true := by simp [hs]
    have h2 : (byTag p "w:lastRenderedPageBreak").isEmpty = false := by
      cases hbt : byTag p "w:lastRenderedPageBreak" <;> simp_all
    simp [sectionPageStep, h1, h2]

/-- Witness for C5 on one section-break paragraph and one page-break
paragraph. -/
theorem sectionPageStep_transitions_witness :
    (byTag sectPara "w:sectPr" ≠ [] ∧
      sectionPageStep sectPara orchState0 =
        { orchState0 with
            currentSection := orchState0.currentSection + 1
            currentPage := 1
            previousNumberingInfo := none }) ∧
    (byTag pageBreakPara "w:sectPr" = [] ∧
      byTag pageBreakPara "w:lastRenderedPageBreak" ≠ [] ∧
      sectionPageStep pageBreakPara orchState0 =
        { orchState0 with currentPage := orchState0.currentPage + 1 }) :=
  ⟨⟨by decide,
    ((sectionPageStep_transitions sectPara orchState0).1 (by decide)).1⟩,
   ⟨by decide, by decide,
    ((sectionPageStep_transitions pageBreakPara orchState0).2 (by decide) (by decide)).1⟩⟩

/- ## Claim C6 -/

/-- Claim C6: `resolveStyleNumbering` tracks visited style ids and stops
when an id reappears, so over a two-node `basedOn` cycle (a based on b, b
based on a, neither carrying numbering) it returns `undefined` rather than
looping forever or throwing; in this embedding the walk is a total function
for every style map and start id. -/
theorem resolveStyleNumbering_cycle_none (a b : String)
    (ha : a ≠ "") (hb : b ≠ "") (hab : a ≠ b) :
    resolveStyleNumbering a
      [(a, ⟨a, "", some b, none⟩), (b, ⟨b, "", some a, none⟩)] = none := by
  have hba : b ≠ a := Ne.symm hab
  simp [resolveStyleNumbering, resolveGo, lookupA, ha, hb, hab, hba]

/-- Witness for C6 at the concrete cycle `A ↔ B`. -/
theorem resolveStyleNumbering_cycle_none_witness :
    ("A" : String) ≠ "" ∧ ("B" : String) ≠ "" ∧ ("A" : String) ≠ "B" ∧
    resolveStyleNumbering "A"
      [("A", ⟨"A", "", some "B", none⟩), ("B", ⟨"B", "", some "A", none⟩)] = none :=
  ⟨by decide, by decide, by decide,
   resolveStyleNumbering_cycle_none "A" "B" (by decide) (by decide) (by decide)⟩

/- ## Claim C8 -/

/-- Claim C8: a reference id that resolves to no annotation element in its
part contributes exactly one `null` placeholder at that id's position in the
resolver's output — the per-id blocks appear in id order, the dangling id's
block being the single `null` — and the dangling id is absorbed rather than
propagated as an error, for comments and footnotes alike. -/
theorem dangling_annotation_single_null (preIds postIds : List String) (id : String)
    (xmlComments xmlFootnotes : Xml) :
    (commentLookup xmlComments id = none →
      buildComments (preIds ++ id :: postIds) xmlComments =
        buildComments preIds xmlComments ++ none :: buildComments postIds xmlComments) ∧
    (footnoteLookup xmlFootnotes id = none →
      buildFootnotes (preIds ++ id :: postIds) xmlFootnotes =
        buildFootnotes preIds xmlFootnotes ++ none :: buildFootnotes postIds xmlFootnotes) := by
  constructor
  · intro h
    simp [buildComments, List.flatMap_append, List.flatMap_cons, commentBlock, h]
  · intro h
    simp [buildFootnotes, List.flatMap_append, List.flatMap_cons, footnoteBlock, h]

/-- Witness for C8: id 9 is dangling in both concrete parts. -/
theorem dangling_annotation_single_null_witness :
    (commentLookup commentsXmlW "9" = none ∧
      buildComments (["1"] ++ "9" :: []) commentsXmlW =
        buildComments ["1"] commentsXmlW ++ none :: buildComments [] commentsXmlW) ∧
    (footnoteLookup footnotesXmlW "9" = none ∧
      buildFootnotes ([] ++ "9" :: []) footnotesXmlW =
        buildFootnotes [] footnotesXmlW ++ none :: buildFootnotes [] footnotesXmlW) :=
  ⟨⟨by decide,
    (dangling_annotation_single_null ["1"] [] "9" commentsXmlW footnotesXmlW).1 (by decide)⟩,
   ⟨by decide,
    (dangling_annotation_single_null [] [] "9" commentsXmlW footnotesXmlW).2 (by decide)⟩⟩

/- ## Claim C3 -/

/-- Claim C3 fails on the code: `hasAnyAnnotations` (modelled from the spec;
the snapshot's `wordUtils.ts` does not contain it, though its tests import
it from there) is true for a batch with a non-null annotation entry and
false for an all-null or empty batch — but `buildSections` assigns the five
fixed column widths 8/7/10/35/40 unconditionally, so the report's column
width proportions do not adapt on that batch-wide decision: a batch with
annotations and an all-null batch are rendered with identical widths. -/
theorem column_widths_do_not_adapt :
    hasAnyAnnotations [[epAnnotated]] = true ∧
    hasAnyAnnotations [[epNull]] = false ∧
    hasAnyAnnotations [] = false ∧
    hasAnyAnnotations [[], []] = false ∧
    buildSectionsColumnWidths [[epAnnotated]] = [8, 7, 10, 35, 40] ∧
    buildSectionsColumnWidths [[epNull]] = [8, 7, 10, 35, 40] ∧
    buildSectionsColumnWidths [[epAnnotated]] = buildSectionsColumnWidths [[epNull]] := by
  refine ⟨by decide, by decide, by decide, by decide, by decide, by decide, by decide⟩

/- ## Claim C2 -/

/-- Counterexample to claim C2 as stated: a paragraph whose `w:numPr`
carries the non-numeric list id `abc` (so `parseInt` would give `NaN`) is
claimed to obtain no numbering label, but the code never parses the id — it
is an opaque map key — so when the numbering maps happen to contain `abc`
the tracker produces the label `1`. -/
theorem nonNumericNumId_still_produces_label :
    parseIntJS "abc" = none ∧
    (trackNumbering cexNonNumericIdPara [("abc", "A")] [("A", [⟨"decimal", ""⟩])]
        (initializeCounters 9)).1 = some "1" ∧
    (some "1" : Option String) ≠ none ∧ ("1" : String) ≠ "" := by
  refine ⟨by decide, ?_, by decide, by decide⟩
  decide

/-- Claim C2 as amended: a malformed (non-numeric) *level* value is absorbed
— the tracker returns a falsy label (absent, or the empty string on the
`NaN` path), never throws and leaves the counter array unchanged, and a
falsy label makes the report row fall back to the section/page locator — in
both the direct and the style-inherited tracker; a non-numeric *id* value is
not itself rejected: ids are opaque map keys, and an id absent from the maps
yields no numbering and unchanged counters. -/
theorem malformed_level_absorbed (p : Xml) (numMap : List (String × String))
    (fmtMap : List (String × List LvlFormat)) (styles : List (String × StyleInfo))
    (counters : List Nat) (numPr : Xml) (lv : String) (sid : String)
    (sn : StyleNumberingInfo) (nid : String) (ep : ExtractedParagraph) :
    (firstByTag p "w:numPr" = some numPr →
      valAttrUnder numPr "w:ilvl" = some lv →
      parseIntJS lv = none →
      optFalsy (trackNumbering p numMap fmtMap counters).1 = true ∧
      (trackNumbering p numMap fmtMap counters).2 = counters) ∧
    (extractParagraphStyle p = some sid →
      resolveStyleNumbering sid styles = some sn →
      parseIntJS (ilvlOrZero sn.ilvl) = none →
      optFalsy (trackStyleNumbering p styles numMap fmtMap counters).1 = true ∧
      (trackStyleNumbering p styles numMap fmtMap counters).2 = counters) ∧
    (firstByTag p "w:numPr" = some numPr →
      valAttrUnder numPr "w:numId" = some nid →
      lookupA numMap nid = none →
      trackNumbering p numMap fmtMap counters = (none, counters)) ∧
    (optFalsy ep.numbering = true →
      rowRefLabel ep = "Sect " ++ jsNumShow ep.sectionNo ++ ", p " ++ jsNumShow ep.page) := by
  refine ⟨?_, ?_, ?_, ?_⟩
  · intro h1 h2 h3
    cases hn : valAttrUnder numPr "w:numId" with
    | none => simp [trackNumbering, h1, h2, hn, optFalsy]
    | some nid' =>
      by_cases he1 : nid' = ""
      · simp [trackNumbering, h1, h2, hn, he1, optFalsy]
      · by_cases he2 : lv = ""
        · simp [trackNumbering, h1, h2, hn, he2, optFalsy]
        · cases hl1 : lookupA numMap nid' with
          | none => simp [trackNumbering, h1, h2, hn, he1, he2, hl1, optFalsy]
          | some anid =>
            cases hl2 : lookupA fmtMap anid with
            | none => simp [trackNumbering, h1, h2, hn, he1, he2, hl1, hl2, optFalsy]
            | some formats =>
              simp [trackNumbering, h1, h2, hn, he1, he2, hl1, hl2, h3, optFalsy,
                String.intercalate]
  · intro h1 h2 h3
    cases hnid : sn.numId with
    | none => simp [trackStyleNumbering, h1, h2, hnid, optFalsy]
    | some nid' =>
      by_cases he1 : nid' = ""
      · simp [trackStyleNumbering, h1, h2, hnid, he1, optFalsy]
      · cases hl1 : lookupA numMap nid' with
        | none => simp [trackStyleNumbering, h1, h2, hnid, he1, hl1, optFalsy]
        | some anid =>
          cases hl2 : lookupA fmtMap anid with
          | none => simp [trackStyleNumbering, h1, h2, hnid, he1, hl1, hl2, optFalsy]
          | some formats =>
            simp [trackStyleNumbering, h1, h2, hnid, he1, hl1, hl2, h3, optFalsy,
              String.intercalate]
  · intro h1 h2 h3
    cases hi : valAttrUnder numPr "w:ilvl" with
    | none => simp [trackNumbering, h1, h2, hi]
    | some lv' =>
      by_cases he1 : nid = ""
      · simp [trackNumbering, h1, h2, hi, he1]
      · by_cases he2 : lv' = ""
        · simp [trackNumbering, h1, h2, hi, he2]
        · simp [trackNumbering, h1, h2, hi, he1, he2, h3]
  · intro h
    cases hn : ep.numbering with
    | none => simp [rowRefLabel, hn]
    | some s =>
      have hs : s = "" := by
        have := h
        simp [optFalsy, hn] at this
        exact this
      simp [rowRefLabel, hn, hs]

/-- Witness for the amended C2: the malformed level `x`, directly and
through a style, and the unknown id `zz`. -/
theorem malformed_level_absorbed_witness :
    (optFalsy (trackNumbering malformedLevelPara numMapW fmtMapW
        (initializeCounters 9)).1 = true ∧
      (trackNumbering malformedLevelPara numMapW fmtMapW
        (initializeCounters 9)).2 = initializeCounters 9) ∧
    (optFalsy (trackStyleNumbering styledPara stylesLvlBad numMapW fmtMapW
        (initializeCounters 9)).1 = true ∧
      (trackStyleNumbering styledPara stylesLvlBad numMapW fmtMapW
        (initializeCounters 9)).2 = initializeCounters 9) ∧
    trackNumbering cexNonNumericIdPara [] [] (initializeCounters 9) =
      (none, initializeCounters 9) ∧
    rowRefLabel epNull = "Sect " ++ jsNumShow epNull.sectionNo ++ ", p " ++ jsNumShow epNull.page :=
  ⟨(malformed_level_absorbed malformedLevelPara numMapW fmtMapW [] (initializeCounters 9)
      (el "w:numPr" [] [el "w:ilvl" [("w:val", "x")] [], el "w:numId" [("w:val", "5")] []])
      "x" "" ⟨none, none⟩ "" epNull).1 (by decide) (by decide) (by decide),
   (malformed_level_absorbed styledPara numMapW fmtMapW stylesLvlBad (initializeCounters 9)
      (el "w:p" [] []) "" "H" ⟨some "5", some "x"⟩ "" epNull).2.1 (by decide) (by decide)
      (by decide),
   (malformed_level_absorbed cexNonNumericIdPara [] [] [] (initializeCounters 9)
      (el "w:numPr" [] [el "w:ilvl" [("w:val", "0")] [], el "w:numId" [("w:val", "abc")] []])
      "" "" ⟨none, none⟩ "abc" epNull).2.2.1 (by decide) (by decide) (by decide),
   (malformed_level_absorbed cexNonNumericIdPara [] [] [] (initializeCounters 9)
      (el "w:p" [] []) "" "" ⟨none, none⟩ "" epNull).2.2.2 (by decide)⟩

/- ## Shared success-path lemmas for the trackers -/

/-- Success path of `trackNumbering`: with a present `w:numPr`, truthy
`numId` and `ilvl` attributes, successful map lookups and a parsed level,
the tracker returns the claimed label and the updated counters. -/
theorem trackNumbering_resolved (p : Xml) (numMap : List (String × String))
    (fmtMap : List (String × List LvlFormat)) (counters : List Nat) (numPr : Xml)
    (nid anid lv : String) (formats : List LvlFormat) (L : Nat)
    (h1 : firstByTag p "w:numPr" = some numPr)
    (h2 : valAttrUnder numPr "w:numId" = some nid) (h2' : nid ≠ "")
    (h3 : valAttrUnder numPr "w:ilvl" = some lv) (h3' : lv ≠ "")
    (h4 : lookupA numMap nid = some anid)
    (h5 : lookupA fmtMap anid = some formats)
    (h6 : parseIntJS lv = some (L : Int)) :
    trackNumbering p numMap fmtMap counters =
      (some (claimedLabel formats L counters), updateCounters counters (L : Int)) := by
  have hcast : ((L : Int) + 1) = ((L + 1 : Nat) : Int) := by push_cast; ring
  have hslice : jsSliceTo (updateCounters counters (L : Int)) ((L : Int) + 1) =
      (updateCounters counters (L : Int)).take (L + 1) := by
    rw [hcast, jsSliceTo_nat]
  simp [trackNumbering, h1, h2, h3, h2', h3', h4, h5, h6, hslice, claimedLabel,
    levelLabel_eq_templateAt]

/-- Success path of `trackStyleNumbering`: with a resolved style numbering
whose list id is truthy, successful map lookups and a parsed (or defaulted)
level, the tracker returns the claimed label and the updated counters. -/
theorem trackStyleNumbering_resolved (p : Xml) (styles : List (String × StyleInfo))
    (numMap : List (String × String)) (fmtMap : List (String × List LvlFormat))
    (counters : List Nat) (nid anid : String) (formats : List LvlFormat) (L : Nat)
    (sid : String) (sn : StyleNumberingInfo)
    (h1 : extractParagraphStyle p = some sid)
    (h2 : resolveStyleNumbering sid styles = some sn)
    (h3 : sn.numId = some nid) (h3' : nid ≠ "")
    (h4 : lookupA numMap nid = some anid)
    (h5 : lookupA fmtMap anid = some formats)
    (h6 : parseIntJS (ilvlOrZero sn.ilvl) = some (L : Int)) :
    trackStyleNumbering p styles numMap fmtMap counters =
      (some (claimedLabel formats L counters), updateCounters counters (L : Int)) := by
  have hcast : ((L : Int) + 1) = ((L + 1 : Nat) : Int) := by push_cast; ring
  have hslice : jsSliceTo (updateCounters counters (L : Int)) ((L : Int) + 1) =
      (updateCounters counters (L : Int)).take (L + 1) := by
    rw [hcast, jsSliceTo_nat]
  simp [trackStyleNumbering, h1, h2, h3, h3', h4, h5, h6, hslice, claimedLabel,
    levelLabel_eq_templateAt]

/- ## Claim C4 -/

/-- Claim C4: a paragraph with resolved direct or style-inherited numbering
at level `L` obtains the level-`L` template with each placeholder `%k`
replaced, in order, by the formatted counter value of level `k-1` for levels
`0..L` (after the counter update), and the period-join of those formatted
values when the level has no template — the statement `claimedLabel`
spells out. -/
theorem numbering_label_from_template (p : Xml) (numMap : List (String × String))
    (fmtMap : List (String × List LvlFormat)) (styles : List (String × StyleInfo))
    (counters : List Nat) (numPr : Xml) (nid anid : String)
    (lv : String) (formats : List LvlFormat) (L : Nat) (sid : String)
    (sn : StyleNumberingInfo) :
    (firstByTag p "w:numPr" = some numPr →
      valAttrUnder numPr "w:numId" = some nid → nid ≠ "" →
      valAttrUnder numPr "w:ilvl" = some lv → lv ≠ "" →
      lookupA numMap nid = some anid →
      lookupA fmtMap anid = some formats →
      parseIntJS lv = some (L : Int) →
      trackNumbering p numMap fmtMap counters =
        (some (claimedLabel formats L counters), updateCounters counters (L : Int))) ∧
    (extractParagraphStyle p = some sid →
      resolveStyleNumbering sid styles = some sn →
      sn.numId = some nid → nid ≠ "" →
      lookupA numMap nid = some anid →
      lookupA fmtMap anid = some formats →
      parseIntJS (ilvlOrZero sn.ilvl) = some (L : Int) →
      trackStyleNumbering p styles numMap fmtMap counters =
        (some (claimedLabel formats L counters), updateCounters counters (L : Int))) :=
  ⟨fun h1 h2 h2' h3 h3' h4 h5 h6 =>
    trackNumbering_resolved p numMap fmtMap counters numPr nid anid lv formats L
      h1 h2 h2' h3 h3' h4 h5 h6,
   fun h1 h2 h3 h3' h4 h5 h6 =>
    trackStyleNumbering_resolved p styles numMap fmtMap counters nid anid formats L
      sid sn h1 h2 h3 h3' h4 h5 h6⟩

/-- Witness for C4: list 5 at level 1, template `%1.%2`, counters after one
level-0 item, directly and through style `H`. -/
theorem numbering_label_from_template_witness :
    (trackNumbering numberedPara numMapW fmtMapW [2, 0, 0, 0, 0, 0, 0, 0, 0] =
      (some (claimedLabel [⟨"decimal", "%1."⟩, ⟨"decimal", "%1.%2"⟩] 1
          [2, 0, 0, 0, 0, 0, 0, 0, 0]),
        updateCounters [2, 0, 0, 0, 0, 0, 0, 0, 0] ((1 : Nat) : Int))) ∧
    claimedLabel [⟨"decimal", "%1."⟩, ⟨"decimal", "%1.%2"⟩] 1
      [2, 0, 0, 0, 0, 0, 0, 0, 0] = "2.1" ∧
    (trackStyleNumbering styledPara stylesLvlOne numMapW fmtMapW
        [2, 0, 0, 0, 0, 0, 0, 0, 0] =
      (some (claimedLabel [⟨"decimal", "%1."⟩, ⟨"decimal", "%1.%2"⟩] 1
          [2, 0, 0, 0, 0, 0, 0, 0, 0]),
        updateCounters [2, 0, 0, 0, 0, 0, 0, 0, 0] ((1 : Nat) : Int))) :=
  ⟨(numbering_label_from_template numberedPara numMapW fmtMapW []
      [2, 0, 0, 0, 0, 0, 0, 0, 0]
      (el "w:numPr" [] [el "w:ilvl" [("w:val", "1")] [], el "w:numId" [("w:val", "5")] []])
      "5" "A" "1" [⟨"decimal", "%1."⟩, ⟨"decimal", "%1.%2"⟩] 1 ""
      ⟨none, none⟩).1
      (by decide) (by decide) (by decide) (by decide) (by decide) (by decide) (by decide)
      (by decide),
   by decide,
   (numbering_label_from_template styledPara numMapW fmtMapW stylesLvlOne
      [2, 0, 0, 0, 0, 0, 0, 0, 0] (el "w:p" [] []) "5" "A" "1"
      [⟨"decimal", "%1."⟩, ⟨"decimal", "%1.%2"⟩] 1 "H" ⟨some "5", some "1"⟩).2
      (by decide) (by decide) (by decide) (by decide) (by decide) (by decide) (by decide)⟩

/- ## Claim C10 -/

/-- Claim C10: the missing-level defaults are asymmetric — a `w:numPr` with
a `w:numId` but no `w:ilvl` child makes `trackNumbering` return `undefined`
with the counters untouched, whereas a resolved style numbering whose
`ilvl` is absent is treated as level 0 by `trackStyleNumbering`, which does
advance the counter array and produces a level-0 label. -/
theorem missing_level_defaults_asymmetric (p : Xml) (numMap : List (String × String))
    (fmtMap : List (String × List LvlFormat)) (styles : List (String × StyleInfo))
    (counters : List Nat) (numPr : Xml) (nid anid : String)
    (formats : List LvlFormat) (sid : String) (sn : StyleNumberingInfo) :
    (firstByTag p "w:numPr" = some numPr →
      valAttrUnder numPr "w:numId" = some nid →
      firstByTag numPr "w:ilvl" = none →
      trackNumbering p numMap fmtMap counters = (none, counters)) ∧
    (extractParagraphStyle p = some sid →
      resolveStyleNumbering sid styles = some sn →
      sn.numId = some nid → nid ≠ "" →
      sn.ilvl = none →
      lookupA numMap nid = some anid →
      lookupA fmtMap anid = some formats →
      trackStyleNumbering p styles numMap fmtMap counters =
        (some (claimedLabel formats 0 counters), updateCounters counters ((0 : Nat) : Int)) ∧
      (counters ≠ [] → updateCounters counters ((0 : Nat) : Int) ≠ counters)) := by
  constructor
  · intro h1 h2 h3
    have hv : valAttrUnder numPr "w:ilvl" = none := by
      simp [valAttrUnder, h3]
    simp [trackNumbering, h1, h2, hv]
  · intro h1 h2 h3 h3' h4 h5 h6
    have hp : parseIntJS (ilvlOrZero sn.ilvl) = some ((0 : Nat) : Int) := by
      rw [h4]
      decide
    constructor
    · exact trackStyleNumbering_resolved p styles numMap fmtMap counters nid anid
        formats 0 sid sn h1 h2 h3 h3' h5 h6 hp
    · intro hne
      cases counters with
      | nil => exact absurd rfl hne
      | cons c rest =>
        simp [updateCounters]

/-- Witness for C10: list 5 through style `H` with no level, versus the
direct `w:numPr` with no `w:ilvl`. -/
theorem missing_level_defaults_asymmetric_witness :
    trackNumbering numIdOnlyPara numMapW fmtMapW (initializeCounters 9) =
      (none, initializeCounters 9) ∧
    (trackStyleNumbering styledPara stylesNoLvl numMapW fmtMapW (initializeCounters 9) =
      (some (claimedLabel [⟨"decimal", "%1."⟩, ⟨"decimal", "%1.%2"⟩] 0
          (initializeCounters 9)),
        updateCounters (initializeCounters 9) ((0 : Nat) : Int))) ∧
    updateCounters (initializeCounters 9) ((0 : Nat) : Int) ≠ initializeCounters 9 :=
  ⟨(missing_level_defaults_asymmetric numIdOnlyPara numMapW fmtMapW []
      (initializeCounters 9) (el "w:numPr" [] [el "w:numId" [("w:val", "5")] []])
      "5" "" [] "" ⟨none, none⟩).1 (by decide) (by decide) (by decide),
   ((missing_level_defaults_asymmetric styledPara numMapW fmtMapW stylesNoLvl
      (initializeCounters 9) (el "w:p" [] []) "5" "A"
      [⟨"decimal", "%1."⟩, ⟨"decimal", "%1.%2"⟩] "H" ⟨some "5", none⟩).2
      (by decide) (by decide) (by decide) (by decide) (by decide) (by decide)
      (by decide)).1,
   ((missing_level_defaults_asymmetric styledPara numMapW fmtMapW stylesNoLvl
      (initializeCounters 9) (el "w:p" [] []) "5" "A"
      [⟨"decimal", "%1."⟩, ⟨"decimal", "%1.%2"⟩] "H" ⟨some "5", none⟩).2
      (by decide) (by decide) (by decide) (by decide) (by decide) (by decide)
      (by decide)).2 (by decide)⟩

/- ## Claim C1 -/

/-- Claim C1 fails on the code: `buildSections` renders every fallback
location as `` `Sect ${section}, p ${page}` `` with no header/footer case,
and the header/footer extractor `processDocumentParagraphs` never sets a
page number, so an extracted header paragraph without numbering is rendered
as `Sect 1, p undefined` — not the claimed `Sect 1, Header` (which the
repository's own `wordUtils.test.ts` documents as the intended label). -/
theorem header_row_renders_p_undefined :
    ((processDocumentParagraphs headerDocC1 criteriaRedline none .header 1
        (some emptyNumCtx) (initializeCounters 9)).1.map rowRefLabel =
      ["Sect 1, p undefined"]) ∧
    ((processDocumentParagraphs headerDocC1 criteriaRedline none .header 1
        (some emptyNumCtx) (initializeCounters 9)).1.map
          (fun ep => ep.source) = [.header]) ∧
    ((processDocumentParagraphs headerDocC1 criteriaRedline none .header 1
        (some emptyNumCtx) (initializeCounters 9)).1.map
          (fun ep => ep.page) = [none]) ∧
    ("Sect 1, p undefined" : String) ≠ "Sect 1, Header" := by
  refine ⟨?_, by decide, by decide, by decide⟩
  decide

/- ## Claim C7 -/

/-- Claim C7: the manual-numbering detection pipeline accepts
`"1.\tFoo bar baz"` with token `1.` and produces no manual numbering for
`"1.Foo"` (no separating whitespace), `"www.example.com\tFoo"` (not a
numbering pattern) and `"1. X"` (insufficient trailing content — the
detector alone does match the token, and the validator then rejects it). -/
theorem manual_numbering_detection_cases :
    detectManualNumbering "1.\tFoo bar baz" = some "1." ∧
    manualNumbering "1.\tFoo bar baz" = some "1." ∧
    manualNumbering "1.Foo" = none ∧
    manualNumbering "www.example.com\tFoo" = none ∧
    detectManualNumbering "1. X" = some "1." ∧
    manualNumbering "1. X" = none := by
  refine ⟨by decide, by decide, by decide, by decide, by decide, by decide⟩
